import Mathlib

/-! Shallow embedding of the ContextLens real-time session pipeline
(server/src/pipeline/processor.ts, server/src/sessions/store.ts,
server/src/ws/hub.ts, server/src/adapters/gemini.ts) together with
theorems about its throttling, accumulation, finalization and
degradation behaviour.

JavaScript strings are modelled as lists of characters, JS numbers as
integers (timestamps, character counts) or rationals (confidences and
fragment timestamps that may be fractional), the session registry map
as a function from identifiers to optional session records, and the
external collaborators (generation backend, MongoDB, metrics sink) as
oracle inputs.  Each event handler is a pure function from the store
and the inputs to the new store plus the ordered list of performed
actions (emitted events, collaborator calls, registry removal). -/

namespace ContextLens

/-- JavaScript strings, modelled as lists of characters. -/
abbrev Str : Type := List Char

/-- JS trim: strip leading and trailing whitespace. -/
def jsTrim (s : Str) : Str :=
  ((s.dropWhile Char.isWhitespace).reverse.dropWhile Char.isWhitespace).reverse

/-- JS slice with a negative start, for positive n: the trailing n elements. -/
def takeRight (n : Nat) (l : Str) : Str := l.drop (l.length - n)

/-- JS Math.round: round half toward positive infinity. -/
def jsRound (q : ℚ) : Int := ⌊q + 1 / 2⌋

/-- JS Number of toFixed 2 for nonnegative values: round to two decimals. -/
def toFixed2 (q : ℚ) : ℚ := (jsRound (q * 100) : ℚ) / 100

/-- The clamp helper of processor.ts: Math.min(max, Math.max(min, value)). -/
def clamp (value lo hi : ℚ) : ℚ := min hi (max lo value)

/-- JS nullish coalescing on optional values. -/
def jsNullish {α : Type} (a b : Option α) : Option α :=
  match a with
  | some x => some x
  | Option.none => b

/-- The closed intent-tag vocabulary of ws/schemas.ts. -/
inductive IntentTag where
  | planning | feedback | debate | smalltalk | joking | venting | support | negotiation | instruction
deriving DecidableEq

/-- Persistence mode of a session. -/
inductive SaveMode where
  | none | mongo
deriving DecidableEq

/-- Transcription source mode of a session. -/
inductive SttMode where
  | mock | deepgram
deriving DecidableEq

structure DisplayCard where
  title : Str
  body : Str
deriving DecidableEq

/-- A transcript fragment as consumed by the processor. -/
structure TranscriptChunk where
  text : Str
  t0_ms : Option ℚ
  t1_ms : Option ℚ
  speaker : Option Str
  receivedAt : Option Int
deriving DecidableEq

structure OverlayUpdate where
  sessionId : Str
  topic_line : Str
  intent_tags : List IntentTag
  confidence : ℚ
  cards : List DisplayCard
  uncertainty_notes : List Str
  last_updated_ms : Int
deriving DecidableEq

structure DebriefMsg where
  sessionId : Str
  bullets : List Str
  suggestions : List Str
  uncertainty_notes : List Str
deriving DecidableEq

structure VisionUpdate where
  sessionId : Str
  scene_summary : Str
  confidence : ℚ
  uncertainty_notes : List Str
  last_updated_ms : Int
deriving DecidableEq

/-- Display state of sessions/store.ts (the feature-complete variant). -/
structure DisplayState where
  sessionId : Str
  updatedAt : Int
  topic_line : Str
  intent_tags : List IntentTag
  confidence : ℚ
  cards : List DisplayCard
  uncertainty_notes : List Str
  transcript_tail : List Str
  env : Option (Str × ℚ)
deriving DecidableEq

/-- SessionState of sessions/store.ts.  The stream handle is tracked only
as a presence flag. -/
structure SessionState where
  sessionId : Str
  userId : Option Str
  language : Option Str
  saveMode : SaveMode
  sttMode : SttMode
  buffer : Str
  chunks : List TranscriptChunk
  overlays : List OverlayUpdate
  visionUpdates : List VisionUpdate
  debrief : Option DebriefMsg
  display : DisplayState
  createdAt : Int
  lastSummaryAt : Int
  lastSummaryChars : Int
  lastVisionAt : Int
  stream : Bool
  overlayLatenciesMs : List Int
deriving DecidableEq

/-- The registry map of SessionStore, modelled extensionally: a JS Map
keyed by session identifier with at most one record per key. -/
abbrev Store : Type := Str → Option SessionState

def emptyStore : Store := fun _ => Option.none

def storeGet (store : Store) (sid : Str) : Option SessionState := store sid

def storeSet (store : Store) (sid : Str) (sess : SessionState) : Store :=
  fun k => if k = sid then some sess else store k

def storeRemove (store : Store) (sid : Str) : Store :=
  fun k => if k = sid then Option.none else store k

/-- Parameters of SessionStore.startSession.  userId and language are
optional in the TS signature; saveMode and sttMode are required. -/
structure StartParams where
  sessionId : Option Str
  userId : Option Str
  language : Option Str
  saveMode : SaveMode
  sttMode : SttMode

/-- The initial display record built for a fresh session. -/
def initialDisplay (sid : Str) (now : Int) : DisplayState :=
  { sessionId := sid
  , updatedAt := now
  , topic_line := "Listening...".data
  , intent_tags := [IntentTag.smalltalk]
  , confidence := 1 / 10
  , cards := [ { title := "What is happening".data, body := "Waiting for transcript.".data }
             , { title := "Try next".data, body := "Speak naturally to start the overlay.".data } ]
  , uncertainty_notes := [ "No transcript yet.".data ]
  , transcript_tail := []
  , env := Option.none }

/-- SessionStore.startSession.  genId stands for the fresh identifier
produced by crypto.randomUUID when no sessionId is supplied, now for
Date.now().  On an existing identifier the supplied optional fields are
merged with nullish coalescing; saveMode and sttMode are non-optional
in the parameter type, so their nullish fallback never fires and they
always take the supplied value. -/
def startSession (store : Store) (p : StartParams) (genId : Str) (now : Int) : Store × SessionState :=
  let sid := p.sessionId.getD genId
  match storeGet store sid with
  | some existing =>
    let merged : SessionState :=
      { existing with
        userId := jsNullish p.userId existing.userId
      , language := jsNullish p.language existing.language
      , saveMode := p.saveMode
      , sttMode := p.sttMode }
    (storeSet store sid merged, merged)
  | Option.none =>
    let fresh : SessionState :=
      { sessionId := sid
      , userId := p.userId
      , language := p.language
      , saveMode := p.saveMode
      , sttMode := p.sttMode
      , buffer := []
      , chunks := []
      , overlays := []
      , visionUpdates := []
      , debrief := Option.none
      , display := initialDisplay sid now
      , createdAt := now
      , lastSummaryAt := 0
      , lastSummaryChars := 0
      , lastVisionAt := 0
      , stream := false
      , overlayLatenciesMs := [] }
    (storeSet store sid fresh, fresh)

/-- The merge performed by startSession on an existing record:
optional fields with nullish fallback, required modes overwritten. -/
def mergedOf (p : StartParams) (sess : SessionState) : SessionState :=
  { sess with
    userId := jsNullish p.userId sess.userId
  , language := jsNullish p.language sess.language
  , saveMode := p.saveMode
  , sttMode := p.sttMode }

/-- Result shape of the rolling-summary gateway call as used by the
processor (topic line, tags, confidence, cards, uncertainty notes). -/
structure RollingResult where
  topic_line : Str
  intent_tags : List IntentTag
  confidence : ℚ
  cards : List DisplayCard
  uncertainty_notes : List Str
deriving DecidableEq

structure DebriefResult where
  bullets : List Str
  suggestions : List Str
  uncertainty_notes : List Str
deriving DecidableEq

structure VisionResult where
  scene_summary : Str
  confidence : ℚ
  uncertainty_notes : List Str
deriving DecidableEq

structure MetricsEvent where
  sessionId_hash : Str
  duration_s : Int
  language : Str
  avg_confidence : ℚ
  intent_counts : List (IntentTag × Nat)
  latency_ms_p50 : Int
deriving DecidableEq

/-- Configuration values read from config.ts. -/
structure Config where
  summaryIntervalMs : Int
  summaryChars : Int
  visionIntervalMs : Int
  maxRollingChars : Nat
  maxDebriefChars : Nat
  sttDefault : SttMode

/-- The processor environment: configuration plus the external
collaborators, given as oracles.  rollingOracle and debriefOracle are
total functions because the gateway contract (and the adapter
implementation) never lets these calls throw; visionOracle may fail.
mongoSaveOutcome and metricsSendOutcome are the outcomes of the awaited
persistence and metrics calls; hashFn abstracts the sha256 hex digest. -/
structure ProcEnv where
  cfg : Config
  hasMongo : Bool
  rollingOracle : Str → Option Str → RollingResult
  debriefOracle : Str → Option Str → DebriefResult
  visionOracle : Str → Str → Option Str → Except Unit VisionResult
  mongoSaveOutcome : Except Unit Unit
  metricsSendOutcome : Except Unit Unit
  hashFn : Str → Str

/-- One observable action of the processor, in performed order. -/
inductive Action where
  | emitOverlay (o : OverlayUpdate)
  | emitDebrief (d : DebriefMsg)
  | emitError (sessionId : Option Str) (code : Str) (message : Str)
  | emitTool (sessionId : Str) (suggestion : Str) (ts : Int)
  | emitVision (v : VisionUpdate)
  | callRolling (window : Str) (language : Option Str)
  | callDebrief (window : Str) (language : Option Str)
  | callVision (image : Str) (mime : Str) (language : Option Str)
  | callMongoSave (sessionId : Str)
  | callMetricsSend (e : MetricsEvent)
  | removeSession (sessionId : Str)
deriving DecidableEq

def codeSessionNotFound : Str := "session_not_found".data

def msgNotFoundStart : Str := "Session not found. Send start_session first.".data

def msgNotFound : Str := "Session not found.".data

def codeMongoUnavailable : Str := "mongo_unavailable".data

def codeMongoWriteFailed : Str := "mongo_write_failed".data

def codeAnalyticsFailed : Str := "analytics_failed".data

/-- pushTail of processor.ts: append the line, drop blank entries, keep
the last four. -/
def pushTail (tail : List Str) (line : Str) : List Str :=
  let next := (tail ++ [line]).filter fun item => ! (jsTrim item).isEmpty
  next.drop (next.length - 4)

/-- The single-line rendering of a fragment, with optional speaker
prefix. -/
def fragLine (ck : TranscriptChunk) : Str :=
  (match ck.speaker with
   | some sp => '[' :: (sp ++ [']', ' '])
   | Option.none => []) ++ ck.text

def buildPracticePrompt : Str :=
  "Try asking the learner to restate the concept in their own words.".data

/-- SessionProcessor.handleTranscript.  now stands for Date.now() during
this event.  Returns the updated registry and the ordered action
trace. -/
def handleTranscript (env : ProcEnv) (store : Store) (sid : Str) (ck : TranscriptChunk) (now : Int) :
    Store × List Action :=
  match storeGet store sid with
  | Option.none =>
    (store, [Action.emitError (some sid) codeSessionNotFound msgNotFoundStart])
  | some sess =>
    let ck1 : TranscriptChunk := { ck with receivedAt := some now }
    let line := fragLine ck
    let buffer1 := sess.buffer ++ line ++ ['\n']
    let display1 :=
      { sess.display with transcript_tail := pushTail sess.display.transcript_tail line, updatedAt := now }
    let sess1 :=
      { sess with chunks := sess.chunks ++ [ck1], buffer := buffer1, display := display1 }
    let charDelta : Int := (buffer1.length : Int) - sess.lastSummaryChars
    let timeDelta : Int := now - sess.lastSummaryAt
    if timeDelta < env.cfg.summaryIntervalMs ∧ charDelta < env.cfg.summaryChars then
      (storeSet store sid sess1, [])
    else
      let window := takeRight env.cfg.maxRollingChars buffer1
      let summary := env.rollingOracle window sess.language
      let overlay : OverlayUpdate :=
        { sessionId := sid
        , topic_line := summary.topic_line
        , intent_tags := summary.intent_tags
        , confidence := clamp summary.confidence 0 1
        , cards := summary.cards
        , uncertainty_notes := summary.uncertainty_notes
        , last_updated_ms := now }
      let display2 :=
        { display1 with
          topic_line := overlay.topic_line
        , intent_tags := overlay.intent_tags
        , confidence := overlay.confidence
        , cards := summary.cards
        , uncertainty_notes := overlay.uncertainty_notes
        , updatedAt := now }
      let lat : List Int :=
        match ck1.receivedAt with
        | some r => if r = 0 then [] else [now - r]
        | Option.none => []
      let sess2 :=
        { sess1 with
          overlays := sess1.overlays ++ [overlay]
        , lastSummaryAt := now
        , lastSummaryChars := (buffer1.length : Int)
        , display := display2
        , overlayLatenciesMs := sess1.overlayLatenciesMs ++ lat }
      ( storeSet store sid sess2
      , [Action.callRolling window sess.language, Action.emitOverlay overlay]
          ++ (if IntentTag.instruction ∈ summary.intent_tags then
                [Action.emitTool sid buildPracticePrompt now]
              else []) )

structure VisionFrame where
  image_base64 : Str
  mime : Str
deriving DecidableEq

/-- Outcome of handleVisionFrame.  thrown records whether the awaited
visionSummary call rejected; in that case the exception propagates out
of the handler and trace holds only the actions performed before the
failure (the registry already carries the lastVisionAt update made
before the call). -/
structure VisionOutcome where
  store : Store
  trace : List Action
  thrown : Bool

/-- SessionProcessor.handleVisionFrame.  The interval gate compares
Date.now() with lastVisionAt; the gateway call is not guarded by any
try or catch in the processor. -/
def handleVisionFrame (env : ProcEnv) (store : Store) (sid : Str) (frame : VisionFrame) (now : Int) :
    VisionOutcome :=
  match storeGet store sid with
  | Option.none =>
    ⟨store, [Action.emitError (some sid) codeSessionNotFound msgNotFoundStart], false⟩
  | some sess =>
    if now - sess.lastVisionAt < env.cfg.visionIntervalMs then ⟨store, [], false⟩
    else
      let sess1 := { sess with lastVisionAt := now }
      match env.visionOracle frame.image_base64 frame.mime sess.language with
      | Except.error _ =>
        ⟨storeSet store sid sess1, [Action.callVision frame.image_base64 frame.mime sess.language], true⟩
      | Except.ok summary =>
        let update : VisionUpdate :=
          { sessionId := sid
          , scene_summary := summary.scene_summary
          , confidence := clamp summary.confidence 0 1
          , uncertainty_notes := summary.uncertainty_notes
          , last_updated_ms := now }
        let sess2 :=
          { sess1 with
            visionUpdates := sess1.visionUpdates ++ [update]
          , display := { sess1.display with env := some (summary.scene_summary, update.confidence), updatedAt := now } }
        ⟨ storeSet store sid sess2
        , [Action.callVision frame.image_base64 frame.mime sess.language, Action.emitVision update]
        , false ⟩

/-- The timestamp pairs extracted from the chunks by estimateDuration:
t0 defaults to 0, t1 to t0 (then 0). -/
def pairsOf (chunks : List TranscriptChunk) : List (ℚ × ℚ) :=
  chunks.map fun ck => (ck.t0_ms.getD 0, ck.t1_ms.getD (ck.t0_ms.getD 0))

/-- Comparison used by the JS sort comparator (a, b) => a.t0 - b.t0. -/
def leT0 (a b : ℚ × ℚ) : Prop := a.1 ≤ b.1

instance : DecidableRel leT0 := fun a b => inferInstanceAs (Decidable (a.1 ≤ b.1))

instance : IsTotal (ℚ × ℚ) leT0 := ⟨fun a b => le_total a.1 b.1⟩

instance : IsTrans (ℚ × ℚ) leT0 := ⟨fun _ _ _ h1 h2 => le_trans h1 h2⟩

/-- The stable ascending sort by t0 performed by Array.prototype.sort
with the numeric comparator (JS array sort is stable). -/
def sortByT0 (l : List (ℚ × ℚ)) : List (ℚ × ℚ) := List.insertionSort leT0 l

/-- estimateDuration of processor.ts.  now stands for Date.now() at the
time of the call. -/
def estimateDuration (sess : SessionState) (now : Int) : Int :=
  if sess.chunks.isEmpty then 0
  else
    let sorted := sortByT0 (pairsOf sess.chunks)
    let start := (sorted.headD (0, 0)).1
    let endT := (sorted.getLastD (0, start)).2
    if endT ≤ start then max 0 (jsRound (((now : ℚ) - (sess.createdAt : ℚ)) / 1000))
    else max 0 (jsRound ((endT - start) / 1000))

/-- average of processor.ts: arithmetic mean rounded via toFixed 2. -/
def average (values : List ℚ) : ℚ :=
  if values.isEmpty then 0 else toFixed2 (values.sum / (values.length : ℚ))

/-- percentile of processor.ts: index into the ascending sort. -/
def percentile (values : List Int) (p : ℚ) : Int :=
  if values.isEmpty then 0
  else
    let sorted := List.insertionSort (fun a b : Int => a ≤ b) values
    let index : Nat := (⌊(p / 100) * ((values.length : ℚ) - 1)⌋).toNat
    sorted.getD index 0

/-- One step of building the intent-count record, preserving first-seen
key order as a JS object does. -/
def bumpTag (tag : IntentTag) : List (IntentTag × Nat) → List (IntentTag × Nat)
  | [] => [(tag, 1)]
  | (t, n) :: rest => if t = tag then (t, n + 1) :: rest else (t, n) :: bumpTag tag rest

/-- countIntentTags of processor.ts. -/
def countIntentTags (overlays : List OverlayUpdate) : List (IntentTag × Nat) :=
  overlays.foldl (fun acc o => o.intent_tags.foldl (fun a t => bumpTag t a) acc) []

/-- SessionProcessor.persistSession: skips entirely unless the session
opted into mongo persistence; reports unavailability or write failure
as scoped error events and never rethrows. -/
def persistSession (env : ProcEnv) (sess : SessionState) : List Action :=
  if sess.saveMode ≠ SaveMode.mongo then []
  else if ! env.hasMongo then
    [Action.emitError (some sess.sessionId) codeMongoUnavailable ( "MongoDB not configured.".data)]
  else
    Action.callMongoSave sess.sessionId ::
      (match env.mongoSaveOutcome with
       | Except.ok _ => []
       | Except.error _ =>
         [Action.emitError (some sess.sessionId) codeMongoWriteFailed ( "Failed to persist session.".data)])

/-- SessionProcessor.sendMetrics: builds the aggregated event and
reports a send failure as a scoped error event. -/
def sendMetrics (env : ProcEnv) (sess : SessionState) (now : Int) : List Action :=
  let ev : MetricsEvent :=
    { sessionId_hash := env.hashFn sess.sessionId
    , duration_s := estimateDuration sess now
    , language := sess.language.getD ( "unknown".data)
    , avg_confidence := average (sess.overlays.map fun o => o.confidence)
    , intent_counts := countIntentTags sess.overlays
    , latency_ms_p50 := percentile sess.overlayLatenciesMs 50 }
  Action.callMetricsSend ev ::
    (match env.metricsSendOutcome with
     | Except.ok _ => []
     | Except.error _ =>
       [Action.emitError (some sess.sessionId) codeAnalyticsFailed ( "Failed to send analytics.".data)])

/-- SessionProcessor.endSession: unconditional debrief, then
persistence attempt, then metrics attempt, then registry removal. -/
def endSession (env : ProcEnv) (store : Store) (sid : Str) (now : Int) : Store × List Action :=
  match storeGet store sid with
  | Option.none =>
    (store, [Action.emitError (some sid) codeSessionNotFound msgNotFound])
  | some sess =>
    let window := takeRight env.cfg.maxDebriefChars sess.buffer
    let ds := env.debriefOracle window sess.language
    let dmsg : DebriefMsg :=
      { sessionId := sid
      , bullets := ds.bullets
      , suggestions := ds.suggestions
      , uncertainty_notes := ds.uncertainty_notes }
    let sess1 := { sess with debrief := some dmsg }
    ( storeRemove (storeSet store sid sess1) sid
    , Action.callDebrief window sess.language :: Action.emitDebrief dmsg ::
        (persistSession env sess1 ++ sendMetrics env sess1 now ++ [Action.removeSession sid]) )

/-- Folding a list of transcript events (fragment and its arrival time)
for one session through handleTranscript. -/
def runTranscripts (env : ProcEnv) (store : Store) (sid : Str) (evs : List (TranscriptChunk × Int)) : Store :=
  evs.foldl (fun st e => (handleTranscript env st sid e.1 e.2).1) store

/-- The start-session message as the ws hub receives it: saveMode and
sttMode may be absent. -/
structure StartSessionMsg where
  sessionId : Option Str
  userId : Option Str
  language : Option Str
  saveMode : Option SaveMode
  sttMode : Option SttMode

/-- The start-session case of createWsHub: an absent saveMode is
replaced by the default before the registry merge (the message schema
also declares this default). -/
def hubStartSession (cfg : Config) (store : Store) (msg : StartSessionMsg) (genId : Str) (now : Int) :
    Store × SessionState :=
  startSession store
    { sessionId := msg.sessionId
    , userId := msg.userId
    , language := msg.language
    , saveMode := msg.saveMode.getD SaveMode.none
    , sttMode := msg.sttMode.getD cfg.sttDefault } genId now

def isCallRolling : Action → Bool
  | Action.callRolling _ _ => true
  | _ => false

def isCallDebrief : Action → Bool
  | Action.callDebrief _ _ => true
  | _ => false

def isEmitDebrief : Action → Bool
  | Action.emitDebrief _ => true
  | _ => false

def isCallMongoSave : Action → Bool
  | Action.callMongoSave _ => true
  | _ => false

def isCallMetricsSend : Action → Bool
  | Action.callMetricsSend _ => true
  | _ => false

def isEmitVision : Action → Bool
  | Action.emitVision _ => true
  | _ => false

def isErrorWithCode (code : Str) : Action → Bool
  | Action.emitError _ c _ => decide (c = code)
  | _ => false

/-- Number of actions in a trace matching a predicate. -/
def countIf (tr : List Action) (f : Action → Bool) : Nat := (tr.filter f).length

/-- JS String.prototype.split on a single-character class: every
delimiter occurrence separates segments and empty segments are kept. -/
def splitOnP (p : Char → Bool) : Str → List Str
  | [] => [[]]
  | c :: rest =>
    match splitOnP p rest with
    | [] => [[]]
    | t :: ts => if p c then [] :: t :: ts else (c :: t) :: ts

/-- Whether a string starts with a whitespace character. -/
def leadWs : Str → Bool
  | [] => false
  | c :: _ => Char.isWhitespace c

/-- JS split on one-or-more whitespace: maximal whitespace runs
separate the tokens; a leading or trailing run contributes one empty
boundary token, and the empty string yields a single empty token. -/
def jsSplitWs (s : Str) : List Str :=
  if s.isEmpty then [[]]
  else
    (if leadWs s then [([] : Str)] else [])
      ++ (splitOnP Char.isWhitespace s).filter (fun t => ! t.isEmpty)
      ++ (if leadWs s.reverse then [([] : Str)] else [])

/-- JS Array.prototype.join with a one-character separator. -/
def joinWith (c : Char) : List Str → Str
  | [] => []
  | [t] => t
  | t :: rest => t ++ c :: joinWith c rest

/-- The sentence delimiters of buildTopicLine. -/
def topicDelims (c : Char) : Bool := c = '.' || c = '!' || c = '?' || c = '\n'

def defaultTopicLine : Str := "Conversation in progress".data

/-- buildTopicLine of adapters/gemini.ts: first non-blank sentence
fragment, trimmed, first twelve words. -/
def buildTopicLine (transcript : Str) : Str :=
  let found := (splitOnP topicDelims transcript).find? fun item => ! (jsTrim item).isEmpty
  joinWith ' ' ((jsSplitWs (jsTrim (found.getD defaultTopicLine))).take 12)

def lowerStr (s : Str) : Str := s.map Char.toLower

/-- Substring containment, the effect of the regex test calls of
heuristicRolling (each regex is an alternation of literals). -/
def containsSub (s : Str) (pat : Str) : Bool := s.tails.any fun t => pat.isPrefixOf t

/-- The RollingSummary shape of adapters/gemini.ts. -/
structure RollingSummary where
  topic_line : Str
  intent_tags : List IntentTag
  confidence : ℚ
  uncertainty_notes : List Str
deriving DecidableEq

/-- The DebriefSummary shape of adapters/gemini.ts. -/
structure DebriefSummary where
  bullets : List Str
  suggestions : List Str
  uncertainty_notes : List Str
deriving DecidableEq

/-- heuristicRolling of adapters/gemini.ts. -/
def heuristicRolling (transcript : Str) : RollingSummary :=
  let lower := lowerStr transcript
  let tags : List IntentTag :=
    (if containsSub lower ( "plan".data) || containsSub lower ( "schedule".data)
        || containsSub lower ( "next step".data) then [IntentTag.planning] else [])
    ++ (if containsSub lower ( "feedback".data) || containsSub lower ( "review".data)
        || containsSub lower ( "opinion".data) then [IntentTag.feedback] else [])
    ++ (if containsSub lower ( "debate".data) || containsSub lower ( "disagree".data)
        || containsSub lower ( "argue".data) then [IntentTag.debate] else [])
    ++ (if containsSub lower ( "joke".data) || containsSub lower ( "lol".data)
        || containsSub lower ( "haha".data) then [IntentTag.joking] else [])
    ++ (if containsSub lower ( "vent".data) || containsSub lower ( "frustrated".data)
        || containsSub lower ( "upset".data) then [IntentTag.venting] else [])
    ++ (if containsSub lower ( "support".data) || containsSub lower ( "help".data)
        || containsSub lower ( "assist".data) then [IntentTag.support] else [])
    ++ (if containsSub lower ( "negotiate".data) || containsSub lower ( "deal".data)
        || containsSub lower ( "trade".data) then [IntentTag.negotiation] else [])
    ++ (if containsSub lower ( "how to".data) || containsSub lower ( "instruction".data)
        || containsSub lower ( "teach".data) then [IntentTag.instruction] else [])
  let tags1 := if tags.isEmpty then [IntentTag.smalltalk] else tags
  { topic_line := buildTopicLine transcript
  , intent_tags := tags1.take 3
  , confidence := toFixed2 (min 1 (3 / 10 + (transcript.length : ℚ) / 1200))
  , uncertainty_notes := if transcript.length < 200 then [ "Limited context.".data] else [] }

/-- heuristicDebrief of adapters/gemini.ts. -/
def heuristicDebrief (transcript : Str) : DebriefSummary :=
  let topic := buildTopicLine transcript
  { bullets := [ "Main topic: ".data ++ topic
               , "Several points were shared across the conversation.".data
               , "Intent signals appeared throughout the exchange.".data ]
  , suggestions := [ "Consider confirming next steps and clarifying open questions.".data]
  , uncertainty_notes := [ "Summary may be incomplete due to limited context.".data] }

/-- normalizeRolling of adapters/gemini.ts: truncate the topic line to
twelve words and the tags to three. -/
def normalizeRolling (summary : RollingSummary) : RollingSummary :=
  { summary with
    topic_line := joinWith ' ' ((jsSplitWs summary.topic_line).take 12)
  , intent_tags := summary.intent_tags.take 3 }

/-- Outcome of one generateContent round trip followed by parseJson:
either the awaited call threw, or it produced text whose schema parse
yielded a value or failed. -/
inductive GenOutcome (α : Type) where
  | thrown
  | parsed (value : Option α)

def intentTagsJson : Str :=
  "[\"planning\",\"feedback\",\"debate\",\"smalltalk\",\"joking\",\"venting\",\"support\",\"negotiation\",\"instruction\"]".data

/-- buildRollingPrompt of adapters/gemini.ts. -/
def buildRollingPrompt (transcript : Str) (language : Option Str) : Str :=
  joinWith '\n'
    [ "You are Context Lens. Return STRICT JSON only. No markdown or code fences.".data
    , "Output schema:".data
    , "\x7b\"topic_line\":\"<= 12 words\",\"intent_tags\":[\"planning\"],\"confidence\":0.0,\"uncertainty_notes\":[\"...\"]\x7d".data
    , "Rules:".data
    , "- intent_tags must be 1-3 tags from: ".data ++ intentTagsJson
    , "- No diagnosis, no medical claims.".data
    , "- Do not assert emotions as facts; use tentative language if needed.".data
    , "- uncertainty_notes can be 0-2 short notes.".data
    , "Language hint: ".data ++ (language.getD ( "unknown".data)) ++ [ '.' ]
    , "Transcript (recent window):".data
    , transcript ]

/-- buildDebriefPrompt of adapters/gemini.ts. -/
def buildDebriefPrompt (transcript : Str) (language : Option Str) : Str :=
  joinWith '\n'
    [ "You are Context Lens. Return STRICT JSON only. No markdown or code fences.".data
    , "Output schema:".data
    , "\x7b\"bullets\":[\"...\"],\"suggestions\":[\"...\"],\"uncertainty_notes\":[\"...\"]\x7d".data
    , "Rules:".data
    , "- bullets: 3-5 short bullets.".data
    , "- suggestions: 1-2 educational practice suggestions.".data
    , "- uncertainty_notes: 1-2 short notes.".data
    , "- No diagnosis, no medical claims.".data
    , "- Do not assert emotions as facts; use tentative language if needed.".data
    , "Language hint: ".data ++ (language.getD ( "unknown".data)) ++ [ '.' ]
    , "Transcript:".data
    , transcript ]

/-- GeminiAdapter.rollingSummary.  hasClient models whether an API key
was configured; generate models the generateContent round trip composed
with parseJson on the produced prompt.  The catch-all try block makes
the function total: a thrown call or a failed parse degrades to the
heuristic. -/
def rollingSummary (hasClient : Bool) (generate : Str → GenOutcome RollingSummary)
    (transcript : Str) (language : Option Str) : RollingSummary :=
  if !hasClient then heuristicRolling transcript
  else
    match generate (buildRollingPrompt transcript language) with
    | GenOutcome.thrown => heuristicRolling transcript
    | GenOutcome.parsed p => normalizeRolling (p.getD (heuristicRolling transcript))

/-- GeminiAdapter.debrief, under the same degradation discipline
(without the normalize step). -/
def geminiDebrief (hasClient : Bool) (generate : Str → GenOutcome DebriefSummary)
    (transcript : Str) (language : Option Str) : DebriefSummary :=
  if !hasClient then heuristicDebrief transcript
  else
    match generate (buildDebriefPrompt transcript language) with
    | GenOutcome.thrown => heuristicDebrief transcript
    | GenOutcome.parsed p => p.getD (heuristicDebrief transcript)

/-- Structural well-formedness the spec requires of a rolling summary:
non-empty topic line, one to three tags (the vocabulary is enforced by
the IntentTag type), confidence in the unit interval, at most two
uncertainty notes. -/
def wellFormedRolling (r : RollingSummary) : Prop :=
  r.topic_line ≠ [] ∧ 1 ≤ r.intent_tags.length ∧ r.intent_tags.length ≤ 3 ∧
    0 ≤ r.confidence ∧ r.confidence ≤ 1 ∧ r.uncertainty_notes.length ≤ 2

/-- Structural well-formedness the spec requires of a debrief: three to
five bullets, one or two suggestions, one or two uncertainty notes. -/
def wellFormedDebrief (d : DebriefSummary) : Prop :=
  3 ≤ d.bullets.length ∧ d.bullets.length ≤ 5 ∧ 1 ≤ d.suggestions.length ∧
    d.suggestions.length ≤ 2 ∧ 1 ≤ d.uncertainty_notes.length ∧ d.uncertainty_notes.length ≤ 2

/-! Concrete inputs used to instantiate the theorems below. -/

def stubRolling : RollingResult :=
  { topic_line := "Topic".data
  , intent_tags := [IntentTag.planning]
  , confidence := 1 / 2
  , cards := []
  , uncertainty_notes := [] }

def stubDebrief : DebriefResult :=
  { bullets := [ "A".data, "B".data, "C".data]
  , suggestions := [ "S".data]
  , uncertainty_notes := [ "U".data] }

def stubVision : VisionResult :=
  { scene_summary := "study room".data, confidence := 1 / 2, uncertainty_notes := [] }

/-- The default configuration values of config.ts. -/
def baseConfig : Config :=
  { summaryIntervalMs := 1500
  , summaryChars := 500
  , visionIntervalMs := 2000
  , maxRollingChars := 2000
  , maxDebriefChars := 8000
  , sttDefault := SttMode.mock }

def baseEnv : ProcEnv :=
  { cfg := baseConfig
  , hasMongo := true
  , rollingOracle := fun _ _ => stubRolling
  , debriefOracle := fun _ _ => stubDebrief
  , visionOracle := fun _ _ _ => Except.ok stubVision
  , mongoSaveOutcome := Except.ok ()
  , metricsSendOutcome := Except.ok ()
  , hashFn := fun s => s }

/-- An environment whose external side effects all fail. -/
def failEnv : ProcEnv :=
  { baseEnv with
    visionOracle := fun _ _ _ => Except.error ()
  , mongoSaveOutcome := Except.error ()
  , metricsSendOutcome := Except.error () }

def exSid : Str := "s1".data

/-- A freshly started session record, as startSession constructs it. -/
def mkSession (sid : Str) : SessionState :=
  (startSession emptyStore
    { sessionId := some sid
    , userId := Option.none
    , language := Option.none
    , saveMode := SaveMode.none
    , sttMode := SttMode.mock } [] 0).2

def exChunk : TranscriptChunk :=
  { text := "hello!".data
  , t0_ms := Option.none
  , t1_ms := Option.none
  , speaker := Option.none
  , receivedAt := Option.none }

/-- A whitespace-only fragment. -/
def blankChunk : TranscriptChunk :=
  { text := "   ".data
  , t0_ms := Option.none
  , t1_ms := Option.none
  , speaker := Option.none
  , receivedAt := Option.none }

/-- Invariant on a registry slot: a present session has a display tail
of at most four entries, none of them blank. -/
def tailOk (o : Option SessionState) : Prop :=
  match o with
  | Option.none => True
  | some s =>
    s.display.transcript_tail.length ≤ 4 ∧ ∀ l ∈ s.display.transcript_tail, jsTrim l ≠ []

instance tailOkDec : (o : Option SessionState) → Decidable (tailOk o)
  | Option.none => Decidable.isTrue trivial
  | some _ => inferInstanceAs (Decidable (_ ∧ _))

/-- Session whose buffer will have grown by 50 characters when exChunk
is appended. -/
def c1SessA : SessionState := { mkSession exSid with buffer := List.replicate 43 'a' }

/-- Session whose buffer will have grown by 10 characters when exChunk
is appended. -/
def c1SessB : SessionState := { mkSession exSid with buffer := List.replicate 3 'a' }

/-- Session whose buffer will have grown by 600 characters when exChunk
is appended. -/
def c1SessC : SessionState := { mkSession exSid with buffer := List.replicate 593 'a' }

/-- Session for the vision counterexample: the 2000 ms interval has
elapsed at now = 2000. -/
def c7Sess : SessionState := mkSession exSid

def exFrame : VisionFrame := { image_base64 := "AAAA".data, mime := "image/jpeg".data }

def c8ChunkA : TranscriptChunk :=
  { text := "a".data, t0_ms := some 0, t1_ms := some 100000, speaker := Option.none, receivedAt := Option.none }

def c8ChunkB : TranscriptChunk :=
  { text := "b".data, t0_ms := some 5000, t1_ms := some 6000, speaker := Option.none, receivedAt := Option.none }

/-- Session for the duration counterexample: the earliest fragment has
the widest span, a later-starting fragment ends much earlier. -/
def c8Sess : SessionState := { mkSession exSid with chunks := [c8ChunkA, c8ChunkB] }

/-- A mongo-mode session used to exercise the finalization paths. -/
def c5Sess : SessionState := { mkSession exSid with saveMode := SaveMode.mongo }

/-- An established session with prior language, buffer and overlays,
used for the duplicate-start merge theorems. -/
def c9Sess : SessionState :=
  { mkSession exSid with
    language := some ( "en".data)
  , saveMode := SaveMode.mongo
  , buffer := "hi\n".data
  , overlays := [ { sessionId := exSid
                  , topic_line := "t".data
                  , intent_tags := [IntentTag.planning]
                  , confidence := 1 / 2
                  , cards := []
                  , uncertainty_notes := []
                  , last_updated_ms := 5 } ] }

def c9Params : StartParams :=
  { sessionId := some exSid
  , userId := Option.none
  , language := some ( "fr".data)
  , saveMode := SaveMode.none
  , sttMode := SttMode.mock }

/-- A reconnect start message that leaves saveMode unspecified. -/
def c10Msg : StartSessionMsg :=
  { sessionId := some exSid
  , userId := Option.none
  , language := Option.none
  , saveMode := Option.none
  , sttMode := Option.none }

/-! Helper lemmas about the registry and the display tail. -/

theorem storeGet_storeSet_self (store : Store) (sid : Str) (sess : SessionState) :
    storeGet (storeSet store sid sess) sid = some sess := by
  simp [storeGet, storeSet]

theorem storeGet_storeSet_ne (store : Store) (sid k : Str) (sess : SessionState) (h : k ≠ sid) :
    storeGet (storeSet store sid sess) k = storeGet store k := by
  simp [storeGet, storeSet, h]

theorem storeGet_storeRemove_self (store : Store) (sid : Str) :
    storeGet (storeRemove store sid) sid = Option.none := by
  simp [storeGet, storeRemove]

theorem pushTail_length_le (tail : List Str) (line : Str) : (pushTail tail line).length ≤ 4 := by
  unfold pushTail
  simp only [List.length_drop]
  omega

theorem pushTail_no_blank (tail : List Str) (line : Str) :
    ∀ l ∈ pushTail tail line, jsTrim l ≠ [] := by
  intro l hl
  unfold pushTail at hl
  have hmem := List.mem_of_mem_drop hl
  have hp := List.of_mem_filter hmem
  intro hnil
  rw [hnil] at hp
  simp at hp

/-- One handleTranscript step on a present session stores a record
whose display tail is exactly the pushTail update of the previous
tail. -/
theorem handleTranscript_tail (env : ProcEnv) (store : Store) (sid : Str) (ck : TranscriptChunk)
    (now : Int) (sess : SessionState) (hget : storeGet store sid = some sess) :
    ∃ s2, storeGet (handleTranscript env store sid ck now).1 sid = some s2 ∧
      s2.display.transcript_tail = pushTail sess.display.transcript_tail (fragLine ck) := by
  simp only [handleTranscript, hget]
  split
  · exact ⟨_, storeGet_storeSet_self _ _ _, rfl⟩
  · exact ⟨_, storeGet_storeSet_self _ _ _, rfl⟩

/-! Theorems for the frozen claims. -/

set_option maxRecDepth 8000 in
/-- C1: for a transcript fragment addressed to an existing session, the
processor calls the rolling-summary gateway exactly when the throttle
does not skip, and it skips exactly when the elapsed time is below
summaryIntervalMs and the buffer growth (measured after appending the
new line) is below summaryChars; with the default thresholds 1500 ms
and 500 chars, a fragment at time delta 200 with char delta 50 does not
trigger, one at 2000 with 10 does, and one at 100 with 600 does.  The
canonical processor has no pause flag, so every session is unpaused. -/
theorem c1_throttle_skip_iff (env : ProcEnv) (store : Store) (sid : Str) (ck : TranscriptChunk)
    (now : Int) (sess : SessionState) (hget : storeGet store sid = some sess) :
    (countIf (handleTranscript env store sid ck now).2 isCallRolling =
      (if now - sess.lastSummaryAt < env.cfg.summaryIntervalMs ∧
          ((sess.buffer ++ fragLine ck ++ ['\n']).length : Int) - sess.lastSummaryChars <
            env.cfg.summaryChars
        then 0 else 1)) ∧
    countIf (handleTranscript baseEnv (storeSet emptyStore exSid c1SessA) exSid exChunk 200).2
      isCallRolling = 0 ∧
    countIf (handleTranscript baseEnv (storeSet emptyStore exSid c1SessB) exSid exChunk 2000).2
      isCallRolling = 1 ∧
    countIf (handleTranscript baseEnv (storeSet emptyStore exSid c1SessC) exSid exChunk 100).2
      isCallRolling = 1 := by
  refine ⟨?_, by decide, by decide, by decide⟩
  simp only [handleTranscript, hget]
  split
  · simp [countIf]
  · split <;> simp [countIf, isCallRolling]

/-- Witness for C1 at a concrete skipping input. -/
theorem c1_throttle_skip_iff_witness :
    countIf (handleTranscript baseEnv (storeSet emptyStore exSid c1SessA) exSid exChunk 200).2
      isCallRolling =
      (if (200 : Int) - c1SessA.lastSummaryAt < baseEnv.cfg.summaryIntervalMs ∧
          ((c1SessA.buffer ++ fragLine exChunk ++ ['\n']).length : Int) - c1SessA.lastSummaryChars <
            baseEnv.cfg.summaryChars
        then 0 else 1) :=
  (c1_throttle_skip_iff baseEnv (storeSet emptyStore exSid c1SessA) exSid exChunk 200 c1SessA
    rfl).1

/-- C3: any transcript, vision-frame or end-session event for an
unknown session identifier produces exactly one session-not-found error
event, leaves the registry untouched, performs no gateway, persistence
or metrics call and emits no other event; the vision handler also does
not throw. -/
theorem c3_unknown_session (env : ProcEnv) (store : Store) (sid : Str)
    (ck : TranscriptChunk) (frame : VisionFrame) (now : Int)
    (hget : storeGet store sid = Option.none) :
    handleTranscript env store sid ck now =
      (store, [Action.emitError (some sid) codeSessionNotFound msgNotFoundStart]) ∧
    handleVisionFrame env store sid frame now =
      ⟨store, [Action.emitError (some sid) codeSessionNotFound msgNotFoundStart], false⟩ ∧
    endSession env store sid now =
      (store, [Action.emitError (some sid) codeSessionNotFound msgNotFound]) := by
  refine ⟨?_, ?_, ?_⟩ <;> simp [handleTranscript, handleVisionFrame, endSession, hget]

/-- Witness for C3 on the empty registry. -/
theorem c3_unknown_session_witness :
    handleTranscript baseEnv emptyStore exSid exChunk 5 =
      (emptyStore, [Action.emitError (some exSid) codeSessionNotFound msgNotFoundStart]) :=
  (c3_unknown_session baseEnv emptyStore exSid exChunk exFrame 5 rfl).1

/-- One handleTranscript step preserves the display-tail invariant on
the addressed slot (it establishes it outright when the session
exists, because pushTail filters blanks and keeps only the last four
entries). -/
theorem handleTranscript_tailOk (env : ProcEnv) (store : Store) (sid : Str)
    (ck : TranscriptChunk) (now : Int) (h : tailOk (storeGet store sid)) :
    tailOk (storeGet (handleTranscript env store sid ck now).1 sid) := by
  cases hget : storeGet store sid with
  | none =>
    simp only [handleTranscript, hget]
    rw [hget] at h
    exact h
  | some sess =>
    obtain ⟨s2, hs2, htail⟩ := handleTranscript_tail env store sid ck now sess hget
    rw [hs2]
    refine ⟨?_, ?_⟩
    · rw [htail]; exact pushTail_length_le _ _
    · rw [htail]; exact pushTail_no_blank _ _

/-- C2: along any sequence of transcript fragments (blank ones
included) processed for a session, the recent-lines display tail keeps
at most four entries and never holds an empty or whitespace-only line,
at every intermediate point (the event list is arbitrary, so every
prefix is covered). -/
theorem c2_recent_tail_bounded (env : ProcEnv) (store : Store) (sid : Str)
    (evs : List (TranscriptChunk × Int)) (h : tailOk (storeGet store sid)) :
    tailOk (storeGet (runTranscripts env store sid evs) sid) := by
  induction evs generalizing store with
  | nil => simpa [runTranscripts] using h
  | cons e rest ih =>
    have h1 := handleTranscript_tailOk env store sid e.1 e.2 h
    have h2 := ih ((handleTranscript env store sid e.1 e.2).1) h1
    simpa [runTranscripts] using h2

/-- Witness for C2: a fresh session fed a real fragment, a blank one
and another real one. -/
theorem c2_recent_tail_bounded_witness :
    tailOk (storeGet
      (runTranscripts baseEnv (storeSet emptyStore exSid (mkSession exSid)) exSid
        [(exChunk, 10), (blankChunk, 20), (exChunk, 30)]) exSid) :=
  c2_recent_tail_bounded baseEnv (storeSet emptyStore exSid (mkSession exSid)) exSid
    [(exChunk, 10), (blankChunk, 20), (exChunk, 30)] (by decide)

theorem persistSession_skip (env : ProcEnv) (sess : SessionState)
    (h : sess.saveMode = SaveMode.none) : persistSession env sess = [] := by
  simp [persistSession, h]

theorem getLast_trace (a b : Action) (p m : List Action) (r : Action) :
    (a :: b :: (p ++ m ++ [r])).getLast? = some r := by
  rw [show a :: b :: (p ++ m ++ [r]) = (a :: b :: (p ++ m)) ++ [r] by simp]
  exact List.getLast?_concat _

theorem code_af_ne_mwf : decide (codeAnalyticsFailed = codeMongoWriteFailed) = false := by decide

theorem code_mu_ne_mwf : decide (codeMongoUnavailable = codeMongoWriteFailed) = false := by decide

theorem code_mwf_ne_af : decide (codeMongoWriteFailed = codeAnalyticsFailed) = false := by decide

theorem code_mu_ne_af : decide (codeMongoUnavailable = codeAnalyticsFailed) = false := by decide

/-- C4: ending a session whose persistence mode is none never performs
a persistence call, while the debrief gateway is invoked exactly once
and exactly one debrief event is emitted. -/
theorem c4_no_persist_on_none (env : ProcEnv) (store : Store) (sid : Str) (now : Int)
    (sess : SessionState) (hget : storeGet store sid = some sess)
    (hmode : sess.saveMode = SaveMode.none) :
    countIf (endSession env store sid now).2 isCallDebrief = 1 ∧
    countIf (endSession env store sid now).2 isEmitDebrief = 1 ∧
    countIf (endSession env store sid now).2 isCallMongoSave = 0 := by
  simp only [endSession, hget]
  cases hme : env.metricsSendOutcome <;>
    simp [persistSession, sendMetrics, hmode, hme, countIf, isCallDebrief, isEmitDebrief,
      isCallMongoSave]

/-- Witness for C4 on a fresh session with default persistence mode. -/
theorem c4_no_persist_on_none_witness :
    countIf (endSession baseEnv (storeSet emptyStore exSid (mkSession exSid)) exSid 50).2
      isCallDebrief = 1 :=
  (c4_no_persist_on_none baseEnv (storeSet emptyStore exSid (mkSession exSid)) exSid 50
    (mkSession exSid) rfl rfl).1

/-- C5: ending an existing session always emits the debrief, always
attempts the metrics egress exactly once, attempts the persistence
save exactly once whenever the session opted into mongo and the store
is configured (never twice: failures are reported as scoped error
events, not retried), and the registry removal is the last action
performed, with the session gone from the registry afterwards, in
every combination of persistence and metrics outcomes. -/
theorem c5_finalization (env : ProcEnv) (store : Store) (sid : Str) (now : Int)
    (sess : SessionState) (hget : storeGet store sid = some sess) :
    (endSession env store sid now).2.getLast? = some (Action.removeSession sid) ∧
    storeGet (endSession env store sid now).1 sid = Option.none ∧
    countIf (endSession env store sid now).2 isEmitDebrief = 1 ∧
    countIf (endSession env store sid now).2 isCallMetricsSend = 1 ∧
    countIf (endSession env store sid now).2 isCallMongoSave ≤ 1 ∧
    (sess.saveMode = SaveMode.mongo → env.hasMongo = true →
      countIf (endSession env store sid now).2 isCallMongoSave = 1) ∧
    (sess.saveMode = SaveMode.mongo → env.hasMongo = true →
      env.mongoSaveOutcome = Except.error () →
      countIf (endSession env store sid now).2 (isErrorWithCode codeMongoWriteFailed) = 1) ∧
    (env.metricsSendOutcome = Except.error () →
      countIf (endSession env store sid now).2 (isErrorWithCode codeAnalyticsFailed) = 1) := by
  refine ⟨?_, ?_, ?_, ?_, ?_, ?_, ?_, ?_⟩ <;> simp only [endSession, hget]
  · exact getLast_trace _ _ _ _ _
  · exact storeGet_storeRemove_self _ _
  all_goals
    cases hsm : sess.saveMode <;> cases hhm : env.hasMongo <;>
      cases hmo : env.mongoSaveOutcome <;> cases hme : env.metricsSendOutcome <;>
      simp [persistSession, sendMetrics, hsm, hhm, hmo, hme, countIf, isEmitDebrief,
        isCallMetricsSend, isCallMongoSave, isErrorWithCode, code_af_ne_mwf, code_mu_ne_mwf,
        code_mwf_ne_af, code_mu_ne_af]

/-- Witness for C5 on a mongo-mode session whose persistence and
metrics calls both fail. -/
theorem c5_finalization_witness :
    (endSession failEnv (storeSet emptyStore exSid c5Sess) exSid 50).2.getLast? =
      some (Action.removeSession exSid) :=
  (c5_finalization failEnv (storeSet emptyStore exSid c5Sess) exSid 50 c5Sess rfl).1

/-- Counterexample for C7 as stated: with the 2000 ms vision interval
elapsed and a visionSummary call that fails, handleVisionFrame performs
the gateway call but emits no vision update at all and the rejection
propagates out of the handler (no degraded snapshot is produced
there). -/
theorem c7_counterexample :
    (handleVisionFrame failEnv (storeSet emptyStore exSid c7Sess) exSid exFrame 2000).thrown =
      true ∧
    countIf (handleVisionFrame failEnv (storeSet emptyStore exSid c7Sess) exSid exFrame 2000).trace
      isEmitVision = 0 ∧
    failEnv.cfg.visionIntervalMs ≤ (2000 : Int) - c7Sess.lastVisionAt := by
  exact ⟨rfl, rfl, by decide⟩

/-- C7 amended: for a vision frame on an existing session with the
fixed interval elapsed, exactly one vision update is emitted when the
visionSummary call succeeds; when the call fails, nothing is emitted
and the failure propagates out of handleVisionFrame (the
degraded-snapshot fallback exists only in the standalone VisionService
capture loop, not in the processor). -/
theorem c7_vision_emit (env : ProcEnv) (store : Store) (sid : Str) (frame : VisionFrame)
    (now : Int) (sess : SessionState) (hget : storeGet store sid = some sess)
    (hdue : ¬(now - sess.lastVisionAt < env.cfg.visionIntervalMs)) :
    (∀ v, env.visionOracle frame.image_base64 frame.mime sess.language = Except.ok v →
      (handleVisionFrame env store sid frame now).thrown = false ∧
      countIf (handleVisionFrame env store sid frame now).trace isEmitVision = 1) ∧
    (∀ e, env.visionOracle frame.image_base64 frame.mime sess.language = Except.error e →
      (handleVisionFrame env store sid frame now).thrown = true ∧
      countIf (handleVisionFrame env store sid frame now).trace isEmitVision = 0) := by
  constructor
  · intro v hv
    simp [handleVisionFrame, hget, hdue, hv, countIf, isEmitVision]
  · intro e he
    simp [handleVisionFrame, hget, hdue, he, countIf, isEmitVision]

/-- Witness for the amended C7 on a succeeding vision call. -/
theorem c7_vision_emit_witness :
    (handleVisionFrame baseEnv (storeSet emptyStore exSid c7Sess) exSid exFrame 2000).thrown =
      false ∧
    countIf (handleVisionFrame baseEnv (storeSet emptyStore exSid c7Sess) exSid exFrame 2000).trace
      isEmitVision = 1 :=
  (c7_vision_emit baseEnv (storeSet emptyStore exSid c7Sess) exSid exFrame 2000 c7Sess rfl
    (by decide)).1 stubVision rfl

theorem sorted_head_min {x : ℚ × ℚ} {xs : List (ℚ × ℚ)} (hs : (x :: xs).Sorted leT0) :
    ∀ p ∈ x :: xs, x.1 ≤ p.1 := by
  intro p hp
  rcases List.mem_cons.mp hp with h | h
  · exact h ▸ le_refl _
  · exact (List.sorted_cons.mp hs).1 p h

theorem mem_of_getLastSome {α : Type} : ∀ {l : List α} {a : α}, l.getLast? = some a → a ∈ l := by
  intro l
  induction l with
  | nil => intro a h; simp at h
  | cons x xs ih =>
    intro a h
    cases xs with
    | nil =>
      simp only [List.getLast?_singleton, Option.some.injEq] at h
      simp [h]
    | cons y ys =>
      rw [List.getLast?_cons_cons] at h
      exact List.mem_cons_of_mem _ (ih h)

theorem getLastSome_of_ne_nil {α : Type} {l : List α} (h : l ≠ []) :
    ∃ a, l.getLast? = some a := by
  cases l with
  | nil => exact absurd rfl h
  | cons x xs => exact ⟨(x :: xs).getLast (by simp), List.getLast?_eq_getLast _ _⟩

theorem sorted_le_getLast {l : List (ℚ × ℚ)} (hs : l.Sorted leT0) {a : ℚ × ℚ}
    (ha : l.getLast? = some a) : ∀ p ∈ l, p.1 ≤ a.1 := by
  induction l with
  | nil => simp at ha
  | cons x xs ih =>
    intro p hp
    cases xs with
    | nil =>
      simp only [List.getLast?_singleton, Option.some.injEq] at ha
      have hpx : p = x := by simpa using hp
      rw [hpx, ha]
    | cons y ys =>
      rw [List.getLast?_cons_cons] at ha
      have hbound := (List.sorted_cons.mp hs).1
      have hs2 := (List.sorted_cons.mp hs).2
      rcases List.mem_cons.mp hp with h | h
      · subst h
        exact hbound _ (mem_of_getLastSome ha)
      · exact ih hs2 ha p h

/-- Counterexample for C8 as stated: two fragments, the first spanning
0 to 100000 ms (a positive span) and the second 5000 to 6000 ms.  The
claim formula max t1 minus min t0 gives 100 seconds, but the code takes
the t1 of the fragment with the greatest t0 after the stable sort, so
the metrics duration is 6 seconds. -/
theorem c8_counterexample :
    estimateDuration c8Sess 99999 = 6 ∧
    jsRound ((100000 - 0 : ℚ) / 1000) = 100 ∧
    c8ChunkA.t0_ms.getD 0 < c8ChunkA.t1_ms.getD 0 ∧
    (6 : Int) ≠ 100 := by
  refine ⟨?_, ?_, ?_, by decide⟩
  · norm_num [estimateDuration, c8Sess, mkSession, startSession, storeGet, emptyStore, pairsOf,
      c8ChunkA, c8ChunkB, sortByT0, List.insertionSort, List.orderedInsert, leT0, jsRound,
      Int.floor_eq_iff]
  · norm_num [jsRound, Int.floor_eq_iff]
  · norm_num [c8ChunkA]

/-- C8 amended: with no fragments at all the duration sent to metrics
is 0 (not the wall-clock age); otherwise let start be the least t0
(missing t0 read as 0) and endT the t1 recorded for a fragment of
maximal t0 (missing t1 read as its t0, then 0): when endT is greater
than start the duration is the rounded span (endT - start) / 1000,
and otherwise it falls back to the rounded wall-clock session age. -/
theorem c8_duration_amended (sess : SessionState) (now : Int) :
    (sess.chunks = [] → estimateDuration sess now = 0) ∧
    (sess.chunks ≠ [] →
      ∃ sp ∈ pairsOf sess.chunks, ∃ ep ∈ pairsOf sess.chunks,
        (∀ p ∈ pairsOf sess.chunks, sp.1 ≤ p.1) ∧
        (∀ p ∈ pairsOf sess.chunks, p.1 ≤ ep.1) ∧
        estimateDuration sess now =
          (if ep.2 ≤ sp.1 then max 0 (jsRound (((now : ℚ) - (sess.createdAt : ℚ)) / 1000))
           else max 0 (jsRound ((ep.2 - sp.1) / 1000)))) := by
  constructor
  · intro h
    simp [estimateDuration, h]
  · intro h
    have hpairs : pairsOf sess.chunks ≠ [] := by simpa [pairsOf] using h
    have hperm : List.Perm (sortByT0 (pairsOf sess.chunks)) (pairsOf sess.chunks) :=
      List.perm_insertionSort _ _
    have hs : (sortByT0 (pairsOf sess.chunks)).Sorted leT0 := List.sorted_insertionSort _ _
    have hne : sortByT0 (pairsOf sess.chunks) ≠ [] := by
      intro h0
      rw [h0] at hperm
      exact hpairs (List.Perm.eq_nil hperm.symm)
    obtain ⟨x, xs, hx⟩ := List.exists_cons_of_ne_nil hne
    obtain ⟨ep, hep⟩ := getLastSome_of_ne_nil hne
    refine ⟨x, ?_, ep, ?_, ?_, ?_, ?_⟩
    · exact hperm.mem_iff.mp (by rw [hx]; exact List.mem_cons_self _ _)
    · exact hperm.mem_iff.mp (mem_of_getLastSome hep)
    · intro p hp
      exact sorted_head_min (hx ▸ hs) p (hx ▸ hperm.mem_iff.mpr hp)
    · intro p hp
      exact sorted_le_getLast hs hep p (hperm.mem_iff.mpr hp)
    · have hempty : sess.chunks.isEmpty = false := by
        cases hc : sess.chunks with
        | nil => exact absurd hc h
        | cons a l => rfl
      simp only [estimateDuration, hempty, Bool.false_eq_true, if_false]
      have hhead : (sortByT0 (pairsOf sess.chunks)).headD (0, 0) = x := by
        rw [hx]; rfl
      have hlast : ∀ d, (sortByT0 (pairsOf sess.chunks)).getLastD d = ep := by
        intro d
        rw [List.getLastD_eq_getLast?, hep]
        rfl
      rw [hhead, hlast]

/-- Witness for the amended C8 on a session with no fragments. -/
theorem c8_duration_amended_witness : estimateDuration (mkSession exSid) 99999 = 0 :=
  (c8_duration_amended (mkSession exSid) 99999).1 rfl

/-- C9: startSession on an existing identifier merges into the existing
record and returns it: the registry slot now holds exactly the merged
record, every piece of accumulated state (buffer, chunks, overlays,
vision history, debrief, display, creation time, throttle bookkeeping,
latencies, stream handle) is unchanged, userId and language overwrite
only when supplied (nullish fallback to the stored value), the required
modes take the supplied values, and no other registry entry changes.
In particular a second start with a different language updates the
language while leaving the buffer and overlay history unchanged. -/
theorem c9_duplicate_start_merge (store : Store) (p : StartParams) (genId : Str) (now : Int)
    (sid : Str) (sess : SessionState) (hsid : p.sessionId = some sid)
    (hget : storeGet store sid = some sess) :
    startSession store p genId now = (storeSet store sid (mergedOf p sess), mergedOf p sess) ∧
    storeGet (startSession store p genId now).1 sid = some (mergedOf p sess) ∧
    (mergedOf p sess).buffer = sess.buffer ∧
    (mergedOf p sess).chunks = sess.chunks ∧
    (mergedOf p sess).overlays = sess.overlays ∧
    (mergedOf p sess).visionUpdates = sess.visionUpdates ∧
    (mergedOf p sess).debrief = sess.debrief ∧
    (mergedOf p sess).display = sess.display ∧
    (mergedOf p sess).createdAt = sess.createdAt ∧
    (mergedOf p sess).lastSummaryAt = sess.lastSummaryAt ∧
    (mergedOf p sess).lastSummaryChars = sess.lastSummaryChars ∧
    (mergedOf p sess).lastVisionAt = sess.lastVisionAt ∧
    (mergedOf p sess).overlayLatenciesMs = sess.overlayLatenciesMs ∧
    (mergedOf p sess).stream = sess.stream ∧
    (mergedOf p sess).sessionId = sess.sessionId ∧
    (mergedOf p sess).userId = jsNullish p.userId sess.userId ∧
    (mergedOf p sess).language = jsNullish p.language sess.language ∧
    (mergedOf p sess).saveMode = p.saveMode ∧
    (mergedOf p sess).sttMode = p.sttMode ∧
    (∀ k, k ≠ sid → storeGet (startSession store p genId now).1 k = storeGet store k) := by
  have heq : startSession store p genId now =
      (storeSet store sid (mergedOf p sess), mergedOf p sess) := by
    simp [startSession, hsid, hget, mergedOf]
  refine ⟨heq, ?_, rfl, rfl, rfl, rfl, rfl, rfl, rfl, rfl, rfl, rfl, rfl, rfl, rfl, rfl, rfl,
    rfl, rfl, ?_⟩
  · rw [heq]; exact storeGet_storeSet_self _ _ _
  · intro k hk
    rw [heq]
    exact storeGet_storeSet_ne _ _ _ _ hk

/-- Witness for C9: a second start for an existing session supplying
only a different language. -/
theorem c9_duplicate_start_merge_witness :
    startSession (storeSet emptyStore exSid c9Sess) c9Params [] 7 =
      (storeSet (storeSet emptyStore exSid c9Sess) exSid (mergedOf c9Params c9Sess),
        mergedOf c9Params c9Sess) :=
  (c9_duplicate_start_merge (storeSet emptyStore exSid c9Sess) c9Params [] 7 exSid c9Sess
    rfl rfl).1

/-- C10: a start_session message addressed to an existing session that
omits saveMode gets the default substituted by the ws hub, so the
registry merge overwrites the stored persistence mode with none — a
prior mongo opt-in does not survive such a reconnect — while the
merged record (still stored under the same identifier) keeps its buffer
and overlay history. -/
theorem c10_omitted_savemode_resets (cfg : Config) (store : Store) (msg : StartSessionMsg)
    (genId : Str) (now : Int) (sid : Str) (sess : SessionState)
    (hsid : msg.sessionId = some sid) (hget : storeGet store sid = some sess)
    (hsm : msg.saveMode = Option.none) :
    (hubStartSession cfg store msg genId now).2.saveMode = SaveMode.none ∧
    storeGet (hubStartSession cfg store msg genId now).1 sid =
      some (hubStartSession cfg store msg genId now).2 ∧
    (hubStartSession cfg store msg genId now).2.buffer = sess.buffer ∧
    (hubStartSession cfg store msg genId now).2.overlays = sess.overlays := by
  have hget2 : store sid = some sess := hget
  simp [hubStartSession, startSession, hsid, hget2, hsm, storeGet, storeSet, mergedOf]

/-- Witness for C10: a reconnect message without saveMode addressed to
a stored mongo-mode session. -/
theorem c10_omitted_savemode_resets_witness :
    (hubStartSession baseConfig (storeSet emptyStore exSid c9Sess) c10Msg [] 9).2.saveMode =
      SaveMode.none :=
  (c10_omitted_savemode_resets baseConfig (storeSet emptyStore exSid c9Sess) c10Msg [] 9 exSid
    c9Sess rfl rfl rfl).1

/-! Lemmas about the adapter string helpers, leading to the structural
well-formedness of the heuristic fallback results. -/

theorem splitOnP_ne_nil (p : Char → Bool) (l : Str) : splitOnP p l ≠ [] := by
  induction l with
  | nil => simp [splitOnP]
  | cons c rest ih =>
    obtain ⟨t, ts, h⟩ := List.exists_cons_of_ne_nil ih
    simp only [splitOnP, h]
    split <;> simp

theorem splitOnP_filter_ne_nil (p : Char → Bool) (l : Str) (c : Char) (hc : c ∈ l)
    (hpc : p c = false) : (splitOnP p l).filter (fun t => ! t.isEmpty) ≠ [] := by
  induction l with
  | nil => simp at hc
  | cons a rest ih =>
    cases hrec : splitOnP p rest with
    | nil => exact absurd hrec (splitOnP_ne_nil p rest)
    | cons t ts =>
      simp only [splitOnP, hrec]
      by_cases hpa : p a = true
      · have hcr : c ∈ rest := by
          rcases List.mem_cons.mp hc with h | h
          · rw [h] at hpc; rw [hpc] at hpa; cases hpa
          · exact h
        have := ih hcr
        rw [hrec] at this
        simpa [hpa] using this
      · have hpa2 : p a = false := by simpa using hpa
        simp [hpa2]

theorem jsSplitWs_shape (s : Str) (h : s ≠ []) : jsSplitWs s ≠ [] ∧ jsSplitWs s ≠ [[]] := by
  have hie : s.isEmpty = false := by
    cases s with
    | nil => exact absurd rfl h
    | cons a l => rfl
  unfold jsSplitWs
  rw [hie]
  simp only [Bool.false_eq_true, if_false]
  cases hF : (splitOnP Char.isWhitespace s).filter (fun t => ! t.isEmpty) with
  | nil =>
    have hall : ∀ c ∈ s, Char.isWhitespace c = true := by
      intro c hc
      by_contra hw
      have hwf : Char.isWhitespace c = false := by simpa using hw
      exact splitOnP_filter_ne_nil Char.isWhitespace s c hc hwf hF
    have hlead : leadWs s = true := by
      cases hs : s with
      | nil => exact absurd hs h
      | cons a l =>
        simp only [leadWs]
        exact hall a (by rw [hs]; exact List.mem_cons_self _ _)
    have hlead2 : leadWs s.reverse = true := by
      cases hr : s.reverse with
      | nil =>
        have : s = [] := by simpa using congrArg List.reverse hr
        exact absurd this h
      | cons a l =>
        simp only [leadWs]
        have ha : a ∈ s.reverse := by rw [hr]; exact List.mem_cons_self _ _
        exact hall a (List.mem_reverse.mp ha)
    rw [hlead, hlead2]
    simp
  | cons f fs =>
    have hf : f ≠ [] := by
      have hfm : f ∈ (splitOnP Char.isWhitespace s).filter (fun t => ! t.isEmpty) := by
        rw [hF]; exact List.mem_cons_self _ _
      have := List.of_mem_filter hfm
      intro h0
      rw [h0] at this
      simp at this
    constructor <;> cases hl : leadWs s <;> cases hl2 : leadWs s.reverse <;>
      simp [hf]

theorem joinWith_take_ne_nil (ts : List Str) (h1 : ts ≠ []) (h2 : ts ≠ [[]]) :
    joinWith ' ' (ts.take 12) ≠ [] := by
  cases ts with
  | nil => exact absurd rfl h1
  | cons t rest =>
    cases rest with
    | nil =>
      have ht : t ≠ [] := by
        intro h0
        exact h2 (by rw [h0])
      simpa [joinWith] using ht
    | cons u more =>
      show joinWith ' ' (t :: u :: more.take 10) ≠ []
      simp [joinWith]

theorem buildTopicLine_ne_nil (t : Str) : buildTopicLine t ≠ [] := by
  unfold buildTopicLine
  cases hf : (splitOnP topicDelims t).find? (fun item => ! (jsTrim item).isEmpty) with
  | none =>
    simp only [Option.getD_none]
    decide
  | some item =>
    simp only [Option.getD_some]
    have hp := List.find?_some hf
    have htr : jsTrim item ≠ [] := by
      intro h0
      rw [h0] at hp
      simp at hp
    have hs := jsSplitWs_shape (jsTrim item) htr
    exact joinWith_take_ne_nil _ hs.1 hs.2

theorem toFixed2_unit (q : ℚ) (h0 : 0 ≤ q) (h1 : q ≤ 1) :
    0 ≤ toFixed2 q ∧ toFixed2 q ≤ 1 := by
  unfold toFixed2 jsRound
  have hlow : (0 : Int) ≤ ⌊q * 100 + 1 / 2⌋ := by
    apply Int.le_floor.mpr
    push_cast
    linarith
  have hhigh : ⌊q * 100 + 1 / 2⌋ ≤ 100 := by
    have : ⌊q * 100 + 1 / 2⌋ < 101 := by
      apply Int.floor_lt.mpr
      push_cast
      linarith
    omega
  constructor
  · apply div_nonneg _ (by norm_num)
    exact_mod_cast hlow
  · rw [div_le_one (by norm_num)]
    exact_mod_cast hhigh

theorem ite_isEmpty_len {α : Type} (l : List α) (x : α) :
    1 ≤ (if l.isEmpty = true then [x] else l).length := by
  cases l <;> simp

theorem heuristicRolling_wf (t : Str) : wellFormedRolling (heuristicRolling t) := by
  have hconf := toFixed2_unit (min 1 (3 / 10 + (t.length : ℚ) / 1200))
    (le_min (by norm_num) (by positivity)) (min_le_left _ _)
  unfold wellFormedRolling heuristicRolling
  refine ⟨buildTopicLine_ne_nil t, ?_, ?_, hconf.1, hconf.2, ?_⟩
  · simp only [List.length_take]
    exact le_min (by norm_num) (ite_isEmpty_len _ _)
  · simp only [List.length_take]
    exact min_le_left _ _
  · split <;> simp

theorem normalize_heuristic_wf (t : Str) :
    wellFormedRolling (normalizeRolling (heuristicRolling t)) := by
  have hw := heuristicRolling_wf t
  obtain ⟨htopic, htag1, htag3, hc0, hc1, hnotes⟩ := hw
  have hs := jsSplitWs_shape (heuristicRolling t).topic_line htopic
  refine ⟨joinWith_take_ne_nil _ hs.1 hs.2, ?_, ?_, hc0, hc1, hnotes⟩
  · simp only [normalizeRolling, List.length_take]
    omega
  · simp only [normalizeRolling, List.length_take]
    omega

theorem heuristicDebrief_wf (t : Str) : wellFormedDebrief (heuristicDebrief t) := by
  simp [heuristicDebrief, wellFormedDebrief]

/-- C6: whatever the transcript window and language hint, if every
generateContent call either throws or produces output whose schema
parse fails, rollingSummary and debrief still return a structurally
well-formed result built from the local heuristic — non-empty topic
line, one to three tags from the closed vocabulary, confidence in the
unit interval, at most two uncertainty notes; three to five bullets,
one or two suggestions, one or two uncertainty notes — and, being
total functions of the outcome, never propagate the failure. -/
theorem c6_gateway_degrades (hasClient : Bool) (genR : Str → GenOutcome RollingSummary)
    (genD : Str → GenOutcome DebriefSummary) (transcript : Str) (language : Option Str)
    (hR : ∀ pr, genR pr = GenOutcome.thrown ∨ genR pr = GenOutcome.parsed Option.none)
    (hD : ∀ pr, genD pr = GenOutcome.thrown ∨ genD pr = GenOutcome.parsed Option.none) :
    wellFormedRolling (rollingSummary hasClient genR transcript language) ∧
    wellFormedDebrief (geminiDebrief hasClient genD transcript language) := by
  constructor
  · unfold rollingSummary
    cases hasClient with
    | false => simpa using heuristicRolling_wf transcript
    | true =>
      rcases hR (buildRollingPrompt transcript language) with h | h <;>
        simp only [Bool.not_true, Bool.false_eq_true, if_false, h]
      · exact heuristicRolling_wf transcript
      · simpa [Option.getD_none] using normalize_heuristic_wf transcript
  · unfold geminiDebrief
    cases hasClient with
    | false => simpa using heuristicDebrief_wf transcript
    | true =>
      rcases hD (buildDebriefPrompt transcript language) with h | h <;>
        simp only [Bool.not_true, Bool.false_eq_true, if_false, h]
      · exact heuristicDebrief_wf transcript
      · simpa [Option.getD_none] using heuristicDebrief_wf transcript

/-- Witness for C6 on a backend that throws on every call. -/
theorem c6_gateway_degrades_witness :
    wellFormedRolling (rollingSummary true (fun _ => GenOutcome.thrown) ( "hello there".data)
      Option.none) ∧
    wellFormedDebrief (geminiDebrief true (fun _ => GenOutcome.thrown) ( "hello there".data)
      Option.none) :=
  c6_gateway_degrades true (fun _ => GenOutcome.thrown) (fun _ => GenOutcome.thrown)
    ( "hello there".data) Option.none (fun _ => Or.inl rfl) (fun _ => Or.inl rfl)

end ContextLens
